import Mathlib

/-!
Verification of the query-safety classification and mode-enforcement layer of
an Oracle MCP server (TypeScript sources `src/query-executor.ts`,
`src/connection-manager.ts`, `src/types.ts`).

The embedding is shallow: each TypeScript function relevant to the claims is
translated into an executable Lean definition.  Strings are Lean `String`s;
JavaScript string operations (`trim`, `toUpperCase`, `includes`,
`startsWith`) and the specific regular expressions of the source are modelled
over `List Char`.  Case folding is modelled on the ASCII range (all SQL
keywords involved are ASCII) and `\s` / trimming use the ASCII whitespace
characters; this is the only simplification relative to the JavaScript
Unicode semantics and it is irrelevant on every string the claims mention.
The asynchronous database driver is modelled as an oracle value describing
the driver's responses, and each execution entry point additionally returns
the list of database interactions it performed, so that "the database is
never invoked" is a provable statement about that list.
-/

namespace OracleMcp

/-- Word characters of the JavaScript regex class `\w` = `[A-Za-z0-9_]`. -/
def isWordChar (c : Char) : Bool :=
  ('A' ≤ c && c ≤ 'Z') || ('a' ≤ c && c ≤ 'z') || ('0' ≤ c && c ≤ '9') || c == '_'

/-- Whitespace characters (ASCII part of JavaScript `\s` and `String.trim`). -/
def isSpaceChar (c : Char) : Bool :=
  c == ' ' || c == '\t' || c == '\n' || c == '\r' || c == '\x0b' || c == '\x0c'

/-- ASCII upper-casing of one character, as JavaScript `toUpperCase` acts on
the ASCII range. -/
def upChar (c : Char) : Char :=
  if 'a' ≤ c && c ≤ 'z' then Char.ofNat (c.toNat - 32) else c

/-- JavaScript `String.prototype.trim` (ASCII whitespace). -/
def trimList (s : List Char) : List Char :=
  ((s.dropWhile isSpaceChar).reverse.dropWhile isSpaceChar).reverse

/-- The characters of `sql.trim().toUpperCase()`. -/
def stripUpper (sql : String) : List Char :=
  (trimList sql.data).map upChar

/-- The characters of `sql.toUpperCase()` (no trimming). -/
def upperData (sql : String) : List Char :=
  sql.data.map upChar

/-- Match a literal character sequence at the head of `s`; on success return
the remaining characters. -/
def dropLit : List Char → List Char → Option (List Char)
  | [], s => some s
  | _ :: _, [] => none
  | c :: cs, d :: ds => if c == d then dropLit cs ds else none

/-- JavaScript `String.prototype.includes`: `needle` occurs as a contiguous
substring of `hay`. -/
def containsSub (needle : List Char) : List Char → Bool
  | [] => (dropLit needle []).isSome
  | c :: cs => (dropLit needle (c :: cs)).isSome || containsSub needle cs

/-- JavaScript `String.prototype.startsWith` for an ASCII keyword, on an
already upper-cased character list. -/
def startsWithKw (kw : String) (s : List Char) : Bool :=
  (dropLit kw.data s).isSome

/-- Regex `\s+` followed by maximal munch: consume one or more whitespace
characters.  In every pattern below the token after `\s+` begins with a
letter, so maximal munch agrees with the backtracking regex semantics. -/
def dropSpaces1 : List Char → Option (List Char)
  | c :: cs => if isSpaceChar c then some (cs.dropWhile isSpaceChar) else none
  | [] => none

/-- Regex word boundary `\b` after a word character: the remaining text is
empty or starts with a non-word character. -/
def atBoundary : List Char → Bool
  | [] => true
  | c :: _ => !isWordChar c

/-- Regex alternation `(A1|A2|...)\b`: some alternative matches here and is
followed by a word boundary (with backtracking across alternatives). -/
def altsBoundary (alts : List String) (s : List Char) : Bool :=
  alts.any fun a =>
    match dropLit a.data s with
    | some rest => atBoundary rest
    | none => false

/-- Scan every position of the text at which a `\b`-anchored pattern could
start (previous character absent or non-word) and try the pattern body
there. -/
def scanAux (patAt : List Char → Bool) (prevIsWord : Bool) : List Char → Bool
  | [] => false
  | c :: cs => (!prevIsWord && patAt (c :: cs)) || scanAux patAt (isWordChar c) cs

/-- Run a `\b`-anchored pattern body over the upper-cased text of `sql`.
All source regexes carry the `i` flag; matching their upper-cased literals
against the upper-cased subject is equivalent on the ASCII range. -/
def rxTest (patAt : List Char → Bool) (sql : String) : Bool :=
  scanAux patAt false (upperData sql)

/-- Body of `DANGEROUS_PATTERNS.drop` from `src/query-executor.ts:22`:
`\bDROP\s+(TABLE|INDEX|VIEW|SEQUENCE|PROCEDURE|FUNCTION|PACKAGE|TRIGGER|SYNONYM|DATABASE|USER|TABLESPACE)\b/i`. -/
def dropAt (s : List Char) : Bool :=
  match dropLit "DROP".data s with
  | some r1 =>
    match dropSpaces1 r1 with
    | some r2 =>
      altsBoundary ["TABLE", "INDEX", "VIEW", "SEQUENCE", "PROCEDURE", "FUNCTION",
        "PACKAGE", "TRIGGER", "SYNONYM", "DATABASE", "USER", "TABLESPACE"] r2
    | none => false
  | none => false

/-- `DANGEROUS_PATTERNS.drop.test(sql)`. -/
def dropTest (sql : String) : Bool := rxTest dropAt sql

/-- Body of `DANGEROUS_PATTERNS.truncate`: `\bTRUNCATE\s+TABLE\b/i`. -/
def truncateAt (s : List Char) : Bool :=
  match dropLit "TRUNCATE".data s with
  | some r1 =>
    match dropSpaces1 r1 with
    | some r2 =>
      match dropLit "TABLE".data r2 with
      | some r3 => atBoundary r3
      | none => false
    | none => false
  | none => false

/-- `DANGEROUS_PATTERNS.truncate.test(sql)`. -/
def truncateTest (sql : String) : Bool := rxTest truncateAt sql

/-- Body of `DANGEROUS_PATTERNS.alterSystem`: `\bALTER\s+SYSTEM\b/i`. -/
def alterSystemAt (s : List Char) : Bool :=
  match dropLit "ALTER".data s with
  | some r1 =>
    match dropSpaces1 r1 with
    | some r2 =>
      match dropLit "SYSTEM".data r2 with
      | some r3 => atBoundary r3
      | none => false
    | none => false
  | none => false

/-- `DANGEROUS_PATTERNS.alterSystem.test(sql)`. -/
def alterSystemTest (sql : String) : Bool := rxTest alterSystemAt sql

/-- Routine object kinds of the `allowedCreate` regex in
`QueryExecutor.executePlsql` (`src/query-executor.ts:284`). -/
def routineAlts : List String :=
  ["PROCEDURE", "FUNCTION", "PACKAGE", "TRIGGER", "TYPE", "VIEW"]

/-- Body of `allowedCreate` from `src/query-executor.ts:284`:
`\bCREATE\s+(OR\s+REPLACE\s+)?(PROCEDURE|FUNCTION|PACKAGE|TRIGGER|TYPE|VIEW)\b/i`.
The optional group is tried greedily first, then dropped, exactly as the
backtracking regex engine does. -/
def allowedCreateAt (s : List Char) : Bool :=
  match dropLit "CREATE".data s with
  | some r1 =>
    match dropSpaces1 r1 with
    | some r2 =>
      (match dropLit "OR".data r2 with
       | some r3 =>
         match dropSpaces1 r3 with
         | some r4 =>
           match dropLit "REPLACE".data r4 with
           | some r5 =>
             match dropSpaces1 r5 with
             | some r6 => altsBoundary routineAlts r6
             | none => false
           | none => false
         | none => false
       | none => false)
      || altsBoundary routineAlts r2
    | none => false
  | none => false

/-- `allowedCreate.test(plsql)`. -/
def allowedCreateTest (plsql : String) : Bool := rxTest allowedCreateAt plsql

/-- Follows the spec's words only (for comparison with `allowedCreateTest`):
"the text is a CREATE-OR-REPLACE of a
PROCEDURE/FUNCTION/PACKAGE/TRIGGER/TYPE/VIEW", i.e. the pattern
`\bCREATE\s+OR\s+REPLACE\s+(PROCEDURE|FUNCTION|PACKAGE|TRIGGER|TYPE|VIEW)\b/i`
with a mandatory `OR REPLACE`. -/
def specCreateOrReplaceAt (s : List Char) : Bool :=
  match dropLit "CREATE".data s with
  | some r1 =>
    match dropSpaces1 r1 with
    | some r2 =>
      match dropLit "OR".data r2 with
      | some r3 =>
        match dropSpaces1 r3 with
        | some r4 =>
          match dropLit "REPLACE".data r4 with
          | some r5 =>
            match dropSpaces1 r5 with
            | some r6 => altsBoundary routineAlts r6
            | none => false
          | none => false
        | none => false
      | none => false
    | none => false
  | none => false

/-- Spec-side predicate: the text matches a CREATE-OR-REPLACE of a routine
object (mandatory `OR REPLACE`). -/
def specCreateOrReplaceRoutine (plsql : String) : Bool :=
  rxTest specCreateOrReplaceAt plsql

/-- `QueryType` enum from `src/types.ts:19`. -/
inductive QueryType where
  | select
  | insert
  | update
  | delete
  | ddl
  | plsql
  | other
deriving DecidableEq, Repr

/-- `DangerLevel` enum from `src/types.ts:29` (the spec calls `safe`
"none"). -/
inductive DangerLevel where
  | safe
  | moderate
  | high
  | critical
deriving DecidableEq, Repr

/-- `ConnectionMode` enum from `src/types.ts:9`. -/
inductive ConnectionMode where
  | readonly
  | readwrite
deriving DecidableEq, Repr

/-- `detectQueryType` from `src/query-executor.ts:29-46`, translated
branch for branch. -/
def detectQueryType (sql : String) : QueryType :=
  let sqlStripped := stripUpper sql
  if startsWithKw "SELECT" sqlStripped then QueryType.select
  else if startsWithKw "INSERT" sqlStripped then QueryType.insert
  else if startsWithKw "UPDATE" sqlStripped then QueryType.update
  else if startsWithKw "DELETE" sqlStripped then QueryType.delete
  else if ["CREATE", "ALTER", "DROP", "TRUNCATE", "GRANT", "REVOKE"].any
      (fun kw => startsWithKw kw sqlStripped) then QueryType.ddl
  else if ["BEGIN", "DECLARE"].any (fun kw => startsWithKw kw sqlStripped)
      || containsSub "CREATE OR REPLACE".data sqlStripped then QueryType.plsql
  else QueryType.other

/-- `sql.toUpperCase().includes('WHERE')` as used by `assessDangerLevel`. -/
def containsWhere (sql : String) : Bool :=
  containsSub "WHERE".data (upperData sql)

/-- `assessDangerLevel` from `src/query-executor.ts:48-96`, translated
branch for branch; each early `return` of the source is one branch of the
conditional chain, carrying exactly the warnings pushed up to that point. -/
def assessDangerLevel (sql : String) (queryType : QueryType) :
    DangerLevel × List String :=
  if queryType = QueryType.select then (DangerLevel.safe, [])
  else if dropTest sql then
    (DangerLevel.critical,
      ["⚠️ DROP statement detected - this will permanently remove objects"])
  else if truncateTest sql then
    (DangerLevel.critical,
      ["⚠️ TRUNCATE statement detected - this will remove all data from the table"])
  else if alterSystemTest sql then
    (DangerLevel.critical,
      ["⚠️ ALTER SYSTEM detected - this modifies database configuration"])
  else if queryType = QueryType.delete && !containsWhere sql then
    (DangerLevel.high,
      ["⚠️ DELETE without WHERE clause - this will delete ALL rows in the table"])
  else if queryType = QueryType.update && !containsWhere sql then
    (DangerLevel.high,
      ["⚠️ UPDATE without WHERE clause - this will update ALL rows in the table"])
  else if queryType = QueryType.ddl then
    (DangerLevel.high, ["ℹ️ DDL statement - schema changes will be made"])
  else if queryType = QueryType.insert || queryType = QueryType.update
      || queryType = QueryType.delete then
    (DangerLevel.moderate, [])
  else (DangerLevel.safe, [])

/-- `QueryResult` interface from `src/types.ts:67-79`; optional fields are
`Option`s, `none` standing for an absent (`undefined`) field.  The fields
this slice never sets (`outputParams`) are omitted. -/
structure QueryResult where
  success : Bool
  queryType : QueryType
  message : String
  columns : Option (List String) := none
  rows : Option (List (List String)) := none
  rowCount : Option Nat := none
  affectedRows : Option Nat := none
  executionTime : Option Nat := none
  warnings : Option (List String) := none
  error : Option String := none
deriving DecidableEq, Repr

/-- One interaction with the database driver.  Each execution model returns
the ordered list of interactions it performed, so "the database is never
invoked" is the statement that this list is empty. -/
inductive DbEvent where
  | getConn
  | execQuery (sql : String) (maxRows : Nat)
  | exec (sql : String)
  | commitEv
  | rollbackEv
deriving DecidableEq, Repr

/-- The `warnings.length > 0 ? warnings : undefined` idiom used by every
result constructor in `src/query-executor.ts`. -/
def warnOpt (warnings : List String) : Option (List String) :=
  if warnings.length > 0 then some warnings else none

/-- JavaScript `maxRows || defaultMaxRows` (`src/query-executor.ts:128`):
`undefined` and `0` are falsy and get replaced by the default. -/
def jsOrDefault (maxRows : Option Nat) (defaultMaxRows : Nat) : Nat :=
  match maxRows with
  | some n => if n = 0 then defaultMaxRows else n
  | none => defaultMaxRows

/-- Driver behaviour oracle for `executeQuery`: column metadata, the full
result set of the statement, whether the `execute` call throws, and the
measured elapsed time.  The driver's `maxRows` execute option returns the
first `maxRows` rows of the full result set. -/
structure QueryDb where
  metaCols : List String
  allRows : List (List String)
  execFails : Bool := false
  errMsg : String := ""
  elapsed : Nat := 0
deriving Repr

/-- `QueryExecutor.executeQuery` from `src/query-executor.ts:111-176`.
`defaultMaxRows` is `this.defaultMaxRows` (taken from the server
configuration in the constructor); the driver call
`connection.execute(sql, .., { maxRows: maxRows + 1 })` is the
`execQuery sql (maxRows + 1)` event returning `db.allRows.take (maxRows+1)`.
Connection acquisition is modelled as always succeeding (a connect failure
is a connectivity error outside these claims, caught by the same `catch`
as `db.execFails`). -/
def executeQuery (defaultMaxRows : Nat) (sql : String) (maxRows? : Option Nat)
    (db : QueryDb) : QueryResult × List DbEvent :=
  let queryType := detectQueryType sql
  if queryType ≠ QueryType.select then
    ({ success := false, queryType,
       message := "execute_query only supports SELECT statements. Use execute_dml for other operations.",
       error := some "Invalid query type" }, [])
  else
    let maxRows := jsOrDefault maxRows? defaultMaxRows
    if db.execFails then
      ({ success := false, queryType,
         message := "Query failed: " ++ db.errMsg,
         error := some db.errMsg },
       [DbEvent.getConn, DbEvent.execQuery sql (maxRows + 1)])
    else
      let rows := db.allRows.take (maxRows + 1)
      let hasMore := rows.length > maxRows
      let resultRows := if hasMore then rows.take maxRows else rows
      let warnings :=
        if hasMore then [s!"ℹ️ Results limited to {maxRows} rows. More rows available."]
        else []
      let n := resultRows.length
      ({ success := true, queryType,
         message := s!"Query executed successfully. Found {n} row(s).",
         columns := some db.metaCols,
         rows := some resultRows,
         rowCount := some n,
         executionTime := some db.elapsed,
         warnings := warnOpt warnings },
       [DbEvent.getConn, DbEvent.execQuery sql (maxRows + 1)])

/-- Driver behaviour oracle for `executeDml`: whether the `execute` call
throws, its error message, the reported affected-row count and the measured
elapsed time. -/
structure DmlDb where
  execFails : Bool := false
  errMsg : String := ""
  rowsAffected : Nat := 0
  elapsed : Nat := 0
deriving Repr

/-- `QueryExecutor.executeDml` from `src/query-executor.ts:178-258`,
with `mode` the configured mode of the named connection
(`getConnectionConfig(connectionName).mode`).  On a driver error the source
re-acquires the connection and attempts a rollback whose own failure is
swallowed; both acquisitions and the rollback attempt appear in the event
list. -/
def executeDml (mode : ConnectionMode) (connectionName sql : String)
    (commit : Bool) (db : DmlDb) : QueryResult × List DbEvent :=
  let queryType := detectQueryType sql
  if mode = ConnectionMode.readonly then
    ({ success := false, queryType,
       message := s!"Connection \x27{connectionName}\x27 is configured as READ ONLY. DML operations are not allowed.",
       error := some "Connection is read-only" }, [])
  else
    let assessed := assessDangerLevel sql queryType
    if assessed.1 = DangerLevel.critical then
      ({ success := false, queryType,
         message := "This operation is blocked for safety. " ++ String.intercalate " " assessed.2,
         error := some "Dangerous operation blocked",
         warnings := some assessed.2 }, [])
    else if db.execFails then
      ({ success := false, queryType,
         message := "Statement failed: " ++ db.errMsg,
         error := some db.errMsg,
         warnings := warnOpt assessed.2 },
       [DbEvent.getConn, DbEvent.exec sql, DbEvent.getConn, DbEvent.rollbackEv])
    else
      let commitMsg :=
        if commit then "Changes committed." else "Changes NOT committed (auto-commit disabled)."
      let n := db.rowsAffected
      ({ success := true, queryType,
         message := s!"Statement executed successfully. {n} row(s) affected. " ++ commitMsg,
         affectedRows := some db.rowsAffected,
         executionTime := some db.elapsed,
         warnings := warnOpt assessed.2 },
       [DbEvent.getConn, DbEvent.exec sql] ++ (if commit then [DbEvent.commitEv] else []))

/-- Outcome of the guard phase of `executePlsql`: either a result returned
before any database interaction, or control reaching the driver (connection
acquired and the block executed) carrying the assessor's warnings. -/
inductive PlsqlPre where
  | denied (r : QueryResult)
  | runs (warnings : List String)
deriving DecidableEq, Repr

/-- Whether a guard outcome is a denial whose result is a failure carrying
exactly the given error text. -/
def PlsqlPre.deniedWithError : PlsqlPre → String → Bool
  | PlsqlPre.denied r, e => !r.success && r.error == some e
  | PlsqlPre.runs _, _ => false

/-- Guard phase of `QueryExecutor.executePlsql` from
`src/query-executor.ts:260-301`: the read-only check, the danger
assessment and the `allowedCreate` exception, up to the point where the
statement is issued to the driver.  The post-execution compilation-status
lookup (lines 311-353) happens after the statement has run and is not part
of any claim, so it is not modelled. -/
def executePlsqlPre (mode : ConnectionMode) (connectionName plsql : String) :
    PlsqlPre :=
  let queryType := detectQueryType plsql
  if mode = ConnectionMode.readonly then
    PlsqlPre.denied
      { success := false, queryType,
        message := s!"Connection \x27{connectionName}\x27 is configured as READ ONLY. PL/SQL execution is not allowed.",
        error := some "Connection is read-only" }
  else
    let assessed := assessDangerLevel plsql queryType
    if assessed.1 = DangerLevel.critical then
      if allowedCreateTest plsql then PlsqlPre.runs assessed.2
      else
        PlsqlPre.denied
          { success := false, queryType,
            message := "This operation is blocked for safety. " ++ String.intercalate " " assessed.2,
            error := some "Dangerous operation blocked",
            warnings := some assessed.2 }
    else PlsqlPre.runs assessed.2

/-- Driver behaviour oracle for `commit`. -/
structure TxDb where
  commitFails : Bool := false
  errMsg : String := ""
deriving Repr

/-- `QueryExecutor.commit` from `src/query-executor.ts:499-529`. -/
def commitModel (mode : ConnectionMode) (connectionName : String) (db : TxDb) :
    QueryResult × List DbEvent :=
  if mode = ConnectionMode.readonly then
    ({ success := false, queryType := QueryType.other,
       message := s!"Connection \x27{connectionName}\x27 is READ ONLY. Cannot commit.",
       error := some "Connection is read-only" }, [])
  else if db.commitFails then
    ({ success := false, queryType := QueryType.other,
       message := "Commit failed: " ++ db.errMsg,
       error := some db.errMsg },
     [DbEvent.getConn, DbEvent.commitEv])
  else
    ({ success := true, queryType := QueryType.other,
       message := s!"Transaction committed on \x27{connectionName}\x27." },
     [DbEvent.getConn, DbEvent.commitEv])

/-- `ConnectionManager.disconnect` from `src/connection-manager.ts:260-274`.
The session map is modelled by its key list `conns` (a `Map` has distinct
keys); `closeFails name` says whether `connection.close()` throws for that
session.  Returned: the boolean result, the key list after the call, and
the `console.error` log lines.  The `finally` block deletes the entry
whether or not `close` threw, and the `catch` swallows the error, so the
function itself never fails. -/
def disconnect (closeFails : String → Bool) (conns : List String)
    (name : String) : Bool × List String × List String :=
  if conns.contains name then
    (true, conns.filter (fun x => x != name),
      if closeFails name then ["Error closing connection " ++ name]
      else ["Disconnected from " ++ name])
  else (false, conns, [])

/-- Loop of `ConnectionManager.disconnectAll`
(`src/connection-manager.ts:276-284`): iterate over a snapshot of the keys
(`Array.from(this.connections.keys())`), calling `disconnect` on the
current map state and counting the calls that return `true`. -/
def disconnectAllGo (closeFails : String → Bool) :
    List String → List String → Nat × List String
  | [], conns => (0, conns)
  | n :: rest, conns =>
    let d := disconnect closeFails conns n
    let r := disconnectAllGo closeFails rest d.2.1
    ((if d.1 then 1 else 0) + r.1, r.2)

/-- `ConnectionManager.disconnectAll`: the snapshot is the key list at
entry. -/
def disconnectAll (closeFails : String → Bool) (conns : List String) :
    Nat × List String :=
  disconnectAllGo closeFails conns conns

/-- Spec-side helper for the claim "every string matching no rule is
classified OTHER": some classification rule of `detectQueryType` applies. -/
def matchesAnyRule (sql : String) : Bool :=
  let s := stripUpper sql
  ["SELECT", "INSERT", "UPDATE", "DELETE", "CREATE", "ALTER", "DROP",
    "TRUNCATE", "GRANT", "REVOKE", "BEGIN", "DECLARE"].any
      (fun kw => startsWithKw kw s)
  || containsSub "CREATE OR REPLACE".data s

/-- C1 (counterexample): the statement `"CREATE OR REPLACE FUNCTION f ..."`
contains the fragment `CREATE OR REPLACE`, yet `detectQueryType` classifies
it as `ddl` (SCHEMA_DEFINITION), not `plsql` (PROCEDURAL): the DDL branch
(leading keyword `CREATE`) is tested before the PL/SQL branch. -/
theorem claim1_counterexample :
    detectQueryType "CREATE OR REPLACE FUNCTION f RETURN NUMBER IS BEGIN RETURN 1; END;"
      = QueryType.ddl ∧
    QueryType.ddl ≠ QueryType.plsql ∧
    containsSub "CREATE OR REPLACE".data
      (stripUpper "CREATE OR REPLACE FUNCTION f RETURN NUMBER IS BEGIN RETURN 1; END;")
      = true := by decide

/-- C1 (amended): a statement whose trimmed, case-folded text contains the
fragment `CREATE OR REPLACE` is classified PROCEDURAL (`plsql`) only when
it starts with none of the recognized leading keywords
SELECT/INSERT/UPDATE/DELETE/CREATE/ALTER/DROP/TRUNCATE/GRANT/REVOKE; in
particular `"CREATE OR REPLACE FUNCTION f ..."` starts with `CREATE` and is
classified SCHEMA_DEFINITION. -/
theorem claim1_create_or_replace_classification :
    ∀ sql : String,
      containsSub "CREATE OR REPLACE".data (stripUpper sql) = true →
      (["SELECT", "INSERT", "UPDATE", "DELETE", "CREATE", "ALTER", "DROP",
        "TRUNCATE", "GRANT", "REVOKE"].all
          (fun kw => !startsWithKw kw (stripUpper sql))) = true →
      detectQueryType sql = QueryType.plsql := by
  intro sql hinc hkw
  simp only [List.all_cons, List.all_nil, Bool.and_eq_true, Bool.not_eq_true'] at hkw
  obtain ⟨hsel, hins, hupd, hdel, hcre, halt, hdrop, htru, hgra, hrev, -⟩ := hkw
  simp [detectQueryType, hsel, hins, hupd, hdel, hcre, halt, hdrop, htru, hgra,
    hrev, hinc]

/-- C1 (witness): a `CREATE OR REPLACE` fragment after a leading comment is
classified PROCEDURAL. -/
theorem claim1_witness :
    detectQueryType "/* recompile */ CREATE OR REPLACE FUNCTION f RETURN NUMBER"
      = QueryType.plsql :=
  claim1_create_or_replace_classification
    "/* recompile */ CREATE OR REPLACE FUNCTION f RETURN NUMBER"
    (by decide) (by decide)

/-- C5 (counterexample): `"DELETE FROM t; DROP TABLE t"` is of kind DELETE
and its upper-cased text lacks the substring WHERE, yet its severity is
`critical` (the DROP-of-object pattern is tested before the no-WHERE rule),
not `high` as the claim's general sentence requires. -/
theorem claim5_counterexample :
    detectQueryType "DELETE FROM t; DROP TABLE t" = QueryType.delete ∧
    containsWhere "DELETE FROM t; DROP TABLE t" = false ∧
    (assessDangerLevel "DELETE FROM t; DROP TABLE t" QueryType.delete).1
      = DangerLevel.critical ∧
    DangerLevel.critical ≠ DangerLevel.high := by decide

/-- C5 (amended): the four concrete assessor cases hold as stated
(`safe` is the spec's severity "none"), and the general no-WHERE rule for
DELETE and UPDATE holds for every text that matches none of the
DROP-of-object, TRUNCATE-TABLE and ALTER-SYSTEM danger patterns, which are
tested first. -/
theorem claim5_assess_cases :
    assessDangerLevel "DELETE FROM t" QueryType.delete
      = (DangerLevel.high,
         ["⚠️ DELETE without WHERE clause - this will delete ALL rows in the table"]) ∧
    assessDangerLevel "DELETE FROM t WHERE id=1" QueryType.delete
      = (DangerLevel.moderate, []) ∧
    assessDangerLevel "DROP TABLE t" QueryType.ddl
      = (DangerLevel.critical,
         ["⚠️ DROP statement detected - this will permanently remove objects"]) ∧
    assessDangerLevel "SELECT * FROM t" QueryType.select = (DangerLevel.safe, []) ∧
    (∀ sql : String, dropTest sql = false → truncateTest sql = false →
      alterSystemTest sql = false → containsWhere sql = false →
      assessDangerLevel sql QueryType.delete
        = (DangerLevel.high,
           ["⚠️ DELETE without WHERE clause - this will delete ALL rows in the table"]) ∧
      assessDangerLevel sql QueryType.update
        = (DangerLevel.high,
           ["⚠️ UPDATE without WHERE clause - this will update ALL rows in the table"])) := by
  refine ⟨by decide, by decide, by decide, by decide, ?_⟩
  intro sql h1 h2 h3 h4
  constructor <;> simp [assessDangerLevel, h1, h2, h3, h4]

/-- C5 (witness): the general no-WHERE DELETE rule at a concrete input. -/
theorem claim5_witness :
    assessDangerLevel "DELETE FROM audit_log" QueryType.delete
      = (DangerLevel.high,
         ["⚠️ DELETE without WHERE clause - this will delete ALL rows in the table"]) :=
  (claim5_assess_cases.2.2.2.2 "DELETE FROM audit_log"
    (by decide) (by decide) (by decide) (by decide)).1

/-- C6: `detectQueryType` is total (always returns one of the seven kinds);
every string beginning, after trim and case folding, with SELECT is
classified `select` (in particular `"  select 1 from dual"`); and every
string matching none of the classification rules is classified `other`. -/
theorem claim6_classifier_total_and_select :
    ∀ sql : String,
      (detectQueryType sql = QueryType.select ∨ detectQueryType sql = QueryType.insert ∨
       detectQueryType sql = QueryType.update ∨ detectQueryType sql = QueryType.delete ∨
       detectQueryType sql = QueryType.ddl ∨ detectQueryType sql = QueryType.plsql ∨
       detectQueryType sql = QueryType.other) ∧
      (startsWithKw "SELECT" (stripUpper sql) = true →
        detectQueryType sql = QueryType.select) ∧
      detectQueryType "  select 1 from dual" = QueryType.select ∧
      (matchesAnyRule sql = false → detectQueryType sql = QueryType.other) := by
  intro sql
  refine ⟨?_, ?_, by decide, ?_⟩
  · cases h : detectQueryType sql <;> simp
  · intro h
    simp [detectQueryType, h]
  · intro h
    simp only [matchesAnyRule, List.any_cons, List.any_nil, Bool.or_eq_false_iff] at h
    obtain ⟨⟨hsel, hins, hupd, hdel, hcre, halt, hdrop, htru, hgra, hrev, hbeg,
      hdecl, -⟩, hinc⟩ := h
    simp [detectQueryType, hsel, hins, hupd, hdel, hcre, halt, hdrop, htru, hgra,
      hrev, hbeg, hdecl, hinc]

/-- C6 (witness): a string matching no rule is classified `other`. -/
theorem claim6_witness :
    detectQueryType "EXPLAIN PLAN FOR SELECT 1" = QueryType.other :=
  (claim6_classifier_total_and_select "EXPLAIN PLAN FOR SELECT 1").2.2.2 (by decide)

/-- C2 (counterexample): `"CREATE PROCEDURE cleanup AS BEGIN EXECUTE
IMMEDIATE 'DROP TABLE t'; END;"` has critical severity and is not a
CREATE-OR-REPLACE of a routine (no `OR REPLACE`), yet `executePlsql`
executes it on a read-write connection, because the source's
`allowedCreate` regex makes `OR REPLACE` optional; conversely, a critical
CREATE-OR-REPLACE statement is not executed on a read-only connection, so
the claimed equivalence does not hold "regardless of connection mode". -/
theorem claim2_counterexample :
    (assessDangerLevel
        "CREATE PROCEDURE cleanup AS BEGIN EXECUTE IMMEDIATE \x27DROP TABLE t\x27; END;"
        (detectQueryType
          "CREATE PROCEDURE cleanup AS BEGIN EXECUTE IMMEDIATE \x27DROP TABLE t\x27; END;")).1
      = DangerLevel.critical ∧
    specCreateOrReplaceRoutine
      "CREATE PROCEDURE cleanup AS BEGIN EXECUTE IMMEDIATE \x27DROP TABLE t\x27; END;"
      = false ∧
    executePlsqlPre ConnectionMode.readwrite "main"
      "CREATE PROCEDURE cleanup AS BEGIN EXECUTE IMMEDIATE \x27DROP TABLE t\x27; END;"
      = PlsqlPre.runs
          ["⚠️ DROP statement detected - this will permanently remove objects"] ∧
    (assessDangerLevel
        "CREATE OR REPLACE PROCEDURE cleanup AS BEGIN EXECUTE IMMEDIATE \x27DROP TABLE t\x27; END;"
        (detectQueryType
          "CREATE OR REPLACE PROCEDURE cleanup AS BEGIN EXECUTE IMMEDIATE \x27DROP TABLE t\x27; END;")).1
      = DangerLevel.critical ∧
    specCreateOrReplaceRoutine
      "CREATE OR REPLACE PROCEDURE cleanup AS BEGIN EXECUTE IMMEDIATE \x27DROP TABLE t\x27; END;"
      = true ∧
    (executePlsqlPre ConnectionMode.readonly "main"
        "CREATE OR REPLACE PROCEDURE cleanup AS BEGIN EXECUTE IMMEDIATE \x27DROP TABLE t\x27; END;").deniedWithError
      "Connection is read-only" = true := by decide

/-- C2 (amended): on a read-write connection, `executePlsql` executes a
critical-severity statement iff its text matches CREATE, optionally
followed by OR REPLACE, of a
PROCEDURE/FUNCTION/PACKAGE/TRIGGER/TYPE/VIEW; a critical statement not
matching that pattern is returned as a failure carrying the assessor's
warnings, without executing; on a read-only connection every statement is
denied as read-only before the severity check; and `executeDml` never
executes a critical-severity statement in any mode. -/
theorem claim2_critical_gate :
    ∀ (mode : ConnectionMode) (name plsql : String) (commit : Bool) (db : DmlDb),
      (assessDangerLevel plsql (detectQueryType plsql)).1 = DangerLevel.critical →
      ((executePlsqlPre ConnectionMode.readwrite name plsql
          = PlsqlPre.runs (assessDangerLevel plsql (detectQueryType plsql)).2)
        ↔ allowedCreateTest plsql = true) ∧
      (allowedCreateTest plsql = false →
        executePlsqlPre ConnectionMode.readwrite name plsql
          = PlsqlPre.denied
              { success := false, queryType := detectQueryType plsql,
                message := "This operation is blocked for safety. "
                  ++ String.intercalate " "
                      (assessDangerLevel plsql (detectQueryType plsql)).2,
                error := some "Dangerous operation blocked",
                warnings := some (assessDangerLevel plsql (detectQueryType plsql)).2 }) ∧
      (executePlsqlPre ConnectionMode.readonly name plsql).deniedWithError
        "Connection is read-only" = true ∧
      (executeDml mode name plsql commit db).2 = [] ∧
      (executeDml mode name plsql commit db).1.success = false := by
  intro mode name plsql commit db h
  refine ⟨?_, ?_, rfl, ?_, ?_⟩
  · cases hA : allowedCreateTest plsql <;> simp [executePlsqlPre, h, hA]
  · intro hA
    simp [executePlsqlPre, h, hA]
  · cases mode <;> simp [executeDml, h]
  · cases mode <;> simp [executeDml, h]

/-- C2 (witness): the amended gate at a concrete critical statement that
does carry `OR REPLACE`. -/
theorem claim2_witness :
    executePlsqlPre ConnectionMode.readwrite "main"
      "CREATE OR REPLACE PROCEDURE cleanup AS BEGIN EXECUTE IMMEDIATE \x27TRUNCATE TABLE t\x27; END;"
      = PlsqlPre.runs
          ["⚠️ TRUNCATE statement detected - this will remove all data from the table"] :=
  ((claim2_critical_gate ConnectionMode.readwrite "main"
      "CREATE OR REPLACE PROCEDURE cleanup AS BEGIN EXECUTE IMMEDIATE \x27TRUNCATE TABLE t\x27; END;"
      true {} (by decide)).1).mpr (by decide)

/-- C3: on a read-write connection, every statement whose assessed severity
is below critical is issued to the database by `executeDml` and the
assessor's warnings are attached to the outcome (whether the driver call
succeeds or fails); a hard block before execution (empty interaction list)
happens only for critical severity. -/
theorem claim3_dml_below_critical :
    ∀ (name sql : String) (commit : Bool) (db : DmlDb),
      ((assessDangerLevel sql (detectQueryType sql)).1 ≠ DangerLevel.critical →
        DbEvent.exec sql ∈ (executeDml ConnectionMode.readwrite name sql commit db).2 ∧
        (executeDml ConnectionMode.readwrite name sql commit db).1.warnings
          = warnOpt (assessDangerLevel sql (detectQueryType sql)).2) ∧
      ((executeDml ConnectionMode.readwrite name sql commit db).2 = [] →
        (assessDangerLevel sql (detectQueryType sql)).1 = DangerLevel.critical) := by
  intro name sql commit db
  constructor
  · intro h
    cases hf : db.execFails <;> constructor <;> simp [executeDml, h, hf]
  · intro h
    by_contra hc
    cases hf : db.execFails <;> simp [executeDml, hc, hf] at h

/-- C3 (witness): the spec's end-to-end example `"UPDATE accounts SET
balance=0"` (severity high, no WHERE clause) is issued on a read-write
connection with its advisory warning attached. -/
theorem claim3_witness :
    DbEvent.exec "UPDATE accounts SET balance=0"
      ∈ (executeDml ConnectionMode.readwrite "main" "UPDATE accounts SET balance=0"
          true {}).2 ∧
    (executeDml ConnectionMode.readwrite "main" "UPDATE accounts SET balance=0"
        true {}).1.warnings
      = warnOpt (assessDangerLevel "UPDATE accounts SET balance=0"
          (detectQueryType "UPDATE accounts SET balance=0")).2 :=
  (claim3_dml_below_critical "main" "UPDATE accounts SET balance=0" true {}).1
    (by decide)

/-- C4: on a connection configured read-only, `executeDml`, `executePlsql`
and `commit` each return a failure whose error is "Connection is
read-only", and perform no database interaction at all: the denial happens
before any connection is acquired. -/
theorem claim4_readonly_hard_stop :
    ∀ (name sql plsql : String) (commit : Bool) (db : DmlDb) (tx : TxDb),
      ((executeDml ConnectionMode.readonly name sql commit db).1.success = false ∧
       (executeDml ConnectionMode.readonly name sql commit db).1.error
         = some "Connection is read-only" ∧
       (executeDml ConnectionMode.readonly name sql commit db).2 = []) ∧
      (executePlsqlPre ConnectionMode.readonly name plsql).deniedWithError
        "Connection is read-only" = true ∧
      ((commitModel ConnectionMode.readonly name tx).1.success = false ∧
       (commitModel ConnectionMode.readonly name tx).1.error
         = some "Connection is read-only" ∧
       (commitModel ConnectionMode.readonly name tx).2 = []) := by
  intro name sql plsql commit db tx
  exact ⟨⟨rfl, rfl, rfl⟩, rfl, ⟨rfl, rfl, rfl⟩⟩

/-- C7: for every successful `executeQuery` call with effective row cap N,
the statement is issued to the driver with a limit of N+1 rows; if the
driver returns more than N rows the result is trimmed to exactly N rows
and a "results limited" warning is attached, otherwise all rows are
returned with no warning; the outcome carries the columns, the rows, a
row count equal to the number of returned rows, and the elapsed time. -/
theorem claim7_row_cap :
    ∀ (defaultMaxRows : Nat) (sql : String) (cap : Option Nat) (db : QueryDb),
      detectQueryType sql = QueryType.select →
      db.execFails = false →
      (executeQuery defaultMaxRows sql cap db).2
        = [DbEvent.getConn,
           DbEvent.execQuery sql (jsOrDefault cap defaultMaxRows + 1)] ∧
      (executeQuery defaultMaxRows sql cap db).1.success = true ∧
      (executeQuery defaultMaxRows sql cap db).1.columns = some db.metaCols ∧
      (executeQuery defaultMaxRows sql cap db).1.executionTime = some db.elapsed ∧
      ((db.allRows.take (jsOrDefault cap defaultMaxRows + 1)).length
          > jsOrDefault cap defaultMaxRows →
        (executeQuery defaultMaxRows sql cap db).1.rows
          = some ((db.allRows.take (jsOrDefault cap defaultMaxRows + 1)).take
              (jsOrDefault cap defaultMaxRows)) ∧
        (executeQuery defaultMaxRows sql cap db).1.rowCount
          = some ((db.allRows.take (jsOrDefault cap defaultMaxRows + 1)).take
              (jsOrDefault cap defaultMaxRows)).length ∧
        ((db.allRows.take (jsOrDefault cap defaultMaxRows + 1)).take
            (jsOrDefault cap defaultMaxRows)).length
          = jsOrDefault cap defaultMaxRows ∧
        (executeQuery defaultMaxRows sql cap db).1.warnings
          = some [s!"ℹ️ Results limited to {jsOrDefault cap defaultMaxRows} rows. More rows available."]) ∧
      (¬ (db.allRows.take (jsOrDefault cap defaultMaxRows + 1)).length
            > jsOrDefault cap defaultMaxRows →
        (executeQuery defaultMaxRows sql cap db).1.rows
          = some (db.allRows.take (jsOrDefault cap defaultMaxRows + 1)) ∧
        (executeQuery defaultMaxRows sql cap db).1.rowCount
          = some (db.allRows.take (jsOrDefault cap defaultMaxRows + 1)).length ∧
        (executeQuery defaultMaxRows sql cap db).1.warnings = none) := by
  intro defaultMaxRows sql cap db h hf
  by_cases hm : (db.allRows.take (jsOrDefault cap defaultMaxRows + 1)).length
      > jsOrDefault cap defaultMaxRows
  · have hlt : jsOrDefault cap defaultMaxRows < db.allRows.length := by
      rw [List.length_take] at hm
      omega
    refine ⟨?_, ?_, ?_, ?_, fun _ => ⟨?_, ?_, ?_, ?_⟩, fun hc => absurd hm hc⟩ <;>
      simp [executeQuery, h, hf, hlt, warnOpt, List.length_take, List.take_take] <;>
      omega
  · have hle : db.allRows.length ≤ jsOrDefault cap defaultMaxRows := by
      rw [List.length_take] at hm
      omega
    have hguard : ¬ jsOrDefault cap defaultMaxRows < db.allRows.length := by omega
    refine ⟨?_, ?_, ?_, ?_, fun hc => absurd hc hm, fun _ => ⟨?_, ?_, ?_⟩⟩ <;>
      simp [executeQuery, h, hf, hguard, warnOpt]

/-- C7 (witness): cap 2 with four available rows: limit 3 requested,
trimmed to 2 rows with the warning attached. -/
theorem claim7_witness :
    (executeQuery 2 "SELECT * FROM t" none
        { metaCols := ["A"], allRows := [["1"], ["2"], ["3"], ["4"]] }).2
      = [DbEvent.getConn, DbEvent.execQuery "SELECT * FROM t" (jsOrDefault none 2 + 1)] :=
  (claim7_row_cap 2 "SELECT * FROM t" none
    { metaCols := ["A"], allRows := [["1"], ["2"], ["3"], ["4"]] }
    (by decide) (by decide)).1

/-- C8: `executeQuery` rejects every statement whose classified kind is not
SELECT before any database interaction, with the message steering the
caller to `execute_dml`. -/
theorem claim8_non_select_rejected :
    ∀ (defaultMaxRows : Nat) (sql : String) (cap : Option Nat) (db : QueryDb),
      detectQueryType sql ≠ QueryType.select →
      executeQuery defaultMaxRows sql cap db
        = ({ success := false, queryType := detectQueryType sql,
             message := "execute_query only supports SELECT statements. Use execute_dml for other operations.",
             error := some "Invalid query type" }, []) := by
  intro defaultMaxRows sql cap db h
  simp [executeQuery, h]

/-- C8 (witness): a DELETE statement is rejected by `executeQuery` with no
database interaction. -/
theorem claim8_witness :
    executeQuery 100 "DELETE FROM t" none { metaCols := [], allRows := [] }
      = ({ success := false, queryType := detectQueryType "DELETE FROM t",
           message := "execute_query only supports SELECT statements. Use execute_dml for other operations.",
           error := some "Invalid query type" }, []) :=
  claim8_non_select_rejected 100 "DELETE FROM t" none
    { metaCols := [], allRows := [] } (by decide)

/-- Specification of the `disconnectAll` loop: iterating `disconnect` over a
duplicate-free snapshot of names all present in the current map releases
each of them exactly once, for every close-failure behaviour. -/
theorem contains_eq_decide (conns : List String) (name : String) :
    conns.contains name = decide (name ∈ conns) := by
  simp [List.contains]

theorem disconnectAllGo_count (f : String → Bool) :
    ∀ (snap conns : List String), snap.Nodup → (∀ n ∈ snap, n ∈ conns) →
      (disconnectAllGo f snap conns).1 = snap.length ∧
      (disconnectAllGo f snap conns).2
        = conns.filter (fun x => !(snap.contains x)) := by
  intro snap
  induction snap with
  | nil =>
    intro conns _ _
    exact ⟨rfl, by simp [disconnectAllGo]⟩
  | cons n rest ih =>
    intro conns hnd hsub
    have hn : n ∈ conns := hsub n (List.mem_cons_self n rest)
    have hd1 : (disconnect f conns n).1 = true := by
      simp [disconnect, hn]
    have hd2 : (disconnect f conns n).2.1 = conns.filter (fun x => x != n) := by
      simp [disconnect, hn]
    obtain ⟨hnin, hndr⟩ := List.nodup_cons.mp hnd
    have hsub' : ∀ m ∈ rest, m ∈ conns.filter (fun x => x != n) := by
      intro m hm
      have hmn : m ≠ n := fun hEq => hnin (hEq ▸ hm)
      rw [List.mem_filter]
      exact ⟨hsub m (List.mem_cons_of_mem _ hm), by simpa [bne_iff_ne] using hmn⟩
    have ihc := ih (conns.filter (fun x => x != n)) hndr hsub'
    constructor
    · show ((if (disconnect f conns n).1 = true then 1 else 0)
          + (disconnectAllGo f rest (disconnect f conns n).2.1).1)
          = (n :: rest).length
      rw [hd1, hd2, ihc.1]
      simp [Nat.add_comm]
    · show (disconnectAllGo f rest (disconnect f conns n).2.1).2
          = conns.filter (fun x => !((n :: rest).contains x))
      rw [hd2, ihc.2, List.filter_filter]
      apply List.filter_congr
      intro x _
      show (!rest.contains x && (x != n)) = !((n :: rest).contains x)
      rw [List.contains_cons, Bool.not_or]
      exact Bool.and_comm _ _

/-- C9: `disconnect` returns `true` exactly when a session existed for the
name, evicting it whether or not closing fails, and returns `false` leaving
the map untouched when none existed (no error in either case, the close
failure only changing the log); `disconnectAll` releases every cached
session and returns their count for every close-failure behaviour, and on
an empty registry returns 0. -/
theorem claim9_disconnect_release :
    ∀ (f : String → Bool) (conns : List String) (name : String),
      ((disconnect f conns name).1 = conns.contains name) ∧
      (conns.contains name = true →
        (disconnect f conns name).2.1 = conns.filter (fun x => x != name)) ∧
      (conns.contains name = false →
        disconnect f conns name = (false, conns, [])) ∧
      (conns.Nodup → disconnectAll f conns = (conns.length, [])) ∧
      disconnectAll f [] = (0, []) := by
  intro f conns name
  refine ⟨?_, ?_, ?_, ?_, rfl⟩
  · rw [contains_eq_decide]
    by_cases hmem : name ∈ conns <;> simp [disconnect, hmem]
  · intro h
    have hmem : name ∈ conns := by simpa [contains_eq_decide] using h
    simp [disconnect, hmem]
  · intro h
    have hmem : name ∉ conns := by simpa [contains_eq_decide] using h
    simp [disconnect, hmem]
  · intro hnd
    have hspec := disconnectAllGo_count f conns conns hnd (fun _ hn => hn)
    have hnil : conns.filter (fun x => !(conns.contains x)) = [] := by
      rw [List.filter_eq_nil_iff]
      intro a ha
      simp [contains_eq_decide, ha]
    have h1 := hspec.1
    have h2 := hspec.2
    rw [hnil] at h2
    unfold disconnectAll
    exact Prod.ext h1 h2

/-- C9 (witness): a two-session registry whose closes both fail still
reports both released and ends empty. -/
theorem claim9_witness :
    disconnectAll (fun _ => true) ["main", "report"] = (2, []) :=
  ((claim9_disconnect_release (fun _ => true) ["main", "report"] "main").2.2.2.1
    (by decide))

/-- C10: a caller-supplied row cap of 0, like an absent one, is replaced by
the configured default in `executeQuery` (JavaScript `maxRows ||
defaultMaxRows`), so with a positive configured default the effective cap
is never zero. -/
theorem claim10_zero_cap_default :
    ∀ (defaultMaxRows : Nat) (sql : String) (db : QueryDb) (cap : Option Nat),
      executeQuery defaultMaxRows sql (some 0) db
        = executeQuery defaultMaxRows sql none db ∧
      jsOrDefault (some 0) defaultMaxRows = defaultMaxRows ∧
      jsOrDefault none defaultMaxRows = defaultMaxRows ∧
      (0 < defaultMaxRows → 0 < jsOrDefault cap defaultMaxRows) := by
  intro defaultMaxRows sql db cap
  refine ⟨rfl, rfl, rfl, ?_⟩
  intro hd
  cases cap with
  | none => exact hd
  | some n =>
    by_cases hn : n = 0
    · simpa [jsOrDefault, hn] using hd
    · simpa [jsOrDefault, hn] using Nat.pos_of_ne_zero hn

/-- C10 (witness): with configured default 100, a requested cap of 0 is
positive after replacement. -/
theorem claim10_witness :
    0 < jsOrDefault (some 0) 100 :=
  (claim10_zero_cap_default 100 "SELECT 1"
    { metaCols := [], allRows := [] } (some 0)).2.2.2 (by decide)

end OracleMcp

